import Mathlib

/-!
Verification of the rvspecfit fitting-engine specification against the code of
src/py/rvspecfit/vel_fit.py and src/py/rvspecfit/desi/desi_fit.py.

The two source files are embedded shallowly:

* numeric values are modelled as exact rationals (the idealisation of the
  floating-point arithmetic of the source); the transcendental float functions
  np.log, np.exp, np.sqrt are abstract parameters of type ℚ → ℚ, except in the
  dedicated real-number model of the vsini transform pair, which uses Real.log
  and Real.exp;
* Python dictionaries keyed by strings are association lists, dictionary
  subscription that can raise KeyError returns an Except value;
* Python exceptions are the PyErr error type propagating through Except;
* calls into code that is not part of the two files (spec_fit.find_best,
  spec_fit.get_chisq, fitter_ccf.fit, scipy.optimize.minimize, ndf.Hessian,
  scipy.linalg.inv) are oracle parameters supplying the values those external
  calls return.
-/

/-- Python exceptions that the modelled code can raise.  The constructor
modelOutOfFuel is a model artifact: it marks exhaustion of the fuel bound of
the embedded while-loop and corresponds to no Python exception. -/
inductive PyErr where
  | attributeError
  | configMustBeProvided
  | keyError
  | indexError
  | assertionError
  | linAlgError
  | modelOutOfFuel
deriving DecidableEq, Repr

deriving instance DecidableEq for Except

/-- Dictionary lookup, the model of Python dict.get(k): none when absent. -/
def dictGet {α : Type} (d : List (String × α)) (k : String) : Option α :=
  match d with
  | [] => none
  | (k2, v) :: rest => if k = k2 then some v else dictGet rest k

/-- Python subscription d[k]: raises KeyError when the key is absent. -/
def pyGetItem (d : List (String × ℚ)) (k : String) : Except PyErr ℚ :=
  match dictGet d k with
  | none => Except.error PyErr.keyError
  | some v => Except.ok v

/-- Sequence of subscriptions d[k] for k in ks (the startParam loop of
vel_fit.process, lines 135-137). -/
def getItems (d : List (String × ℚ)) : List String → Except PyErr (List ℚ)
  | [] => Except.ok []
  | k :: ks =>
    match dictGet d k with
    | none => Except.error PyErr.keyError
    | some v =>
      match getItems d ks with
      | Except.error e => Except.error e
      | Except.ok vs => Except.ok (v :: vs)

/-- Python truthiness of a number: zero is falsy. -/
def pyTruthy (x : ℚ) : Bool := x != 0

/-- The Python idiom `config.get(name) or default` of vel_fit.process lines
59-64: the default is taken when the key is absent OR when the stored value is
falsy (in particular when it is 0). -/
def pyOrQ (v : Option ℚ) (d : ℚ) : ℚ :=
  match v with
  | none => d
  | some x => if pyTruthy x then x else d

/-- The six configuration options read by vel_fit.process (lines 59-64). -/
structure VelFitOpts where
  min_vel : ℚ
  max_vel : ℚ
  vel_step0 : ℚ
  max_vsini : ℚ
  min_vsini : ℚ
  min_vel_step : ℚ
deriving DecidableEq, Repr

/-- The values the six `config.get(...) or default` expressions of
vel_fit.process lines 59-64 produce for a present (non-None) config dict. -/
def optsOf (c : List (String × ℚ)) : VelFitOpts :=
  { min_vel := pyOrQ (dictGet c "min_vel") (-1000),
    max_vel := pyOrQ (dictGet c "max_vel") 1000,
    vel_step0 := pyOrQ (dictGet c "vel_step0") 5,
    max_vsini := pyOrQ (dictGet c "max_vsini") 500,
    min_vsini := pyOrQ (dictGet c "min_vsini") (1/100),
    min_vel_step := pyOrQ (dictGet c "min_vel_step") (1/5) }

/-- Lines 58-67 of vel_fit.process in source order: the six
`config.get(...) or default` reads run FIRST, so a None config raises
AttributeError (None has no attribute get) at line 59; the
`if config is None: raise Exception('Config must be provided')` guard at
lines 66-67 runs after them and is therefore unreachable.  The unreachable
guard is kept in the model to show that it can never fire. -/
def configStage (config : Option (List (String × ℚ))) : Except PyErr VelFitOpts := do
  let opts ← match config with
    | none => Except.error PyErr.attributeError
    | some c => Except.ok (optsOf c)
  match config with
  | none => Except.error PyErr.configMustBeProvided
  | some _ => Except.ok opts

/-- mapVsini of vel_fit.process lines 69-70, with np.log as the abstract float
logarithm logQ; np.clip(v, lo, hi) is min (max v lo) hi. -/
def mapVsiniQ (logQ : ℚ → ℚ) (mn mx v : ℚ) : ℚ := logQ (min (max v mn) mx)

/-- mapVsiniInv of vel_fit.process lines 72-73, with np.exp as the abstract
float exponential expQ. -/
def mapVsiniInvQ (expQ : ℚ → ℚ) (mn mx x : ℚ) : ℚ := min (max (expQ x) mn) mx

/-- mapVsini of vel_fit.process lines 69-70 over the real numbers (the exact
mathematical content of np.log(np.clip(vsini, min_vsini, max_vsini))). -/
noncomputable def mapVsini (min_vsini max_vsini v : ℝ) : ℝ :=
  Real.log (min (max v min_vsini) max_vsini)

/-- mapVsiniInv of vel_fit.process lines 72-73 over the real numbers. -/
noncomputable def mapVsiniInv (min_vsini max_vsini x : ℝ) : ℝ :=
  min (max (Real.exp x) min_vsini) max_vsini

/-- Lines 84-92 of vel_fit.process: rot_params and fitVsini from the presence
of the vsini key in paramDict0 and its membership in fixParam.  Returns
(paramDict0 value at vsini if present, fitVsini). -/
def vsiniSetup (paramDict0 : List (String × ℚ)) (fixParam : List String) :
    Option ℚ × Bool :=
  match dictGet paramDict0 "vsini" with
  | none => (none, false)
  | some v => (some v, if "vsini" ∈ fixParam then false else true)

/-- The dictionary paramMapper builds (vel_fit.process lines 103-128):
vel, optional vsini, rot_params (the vsini again, or none), and the physical
parameter list. -/
structure MappedParams where
  vel : ℚ
  vsini : Option ℚ
  rot_params : Option ℚ
  params : List ℚ
deriving DecidableEq, Repr

/-- p0rev.pop() of vel_fit.process: takes the next entry of the (reversed
then popped from the end, hence front-to-back) optimizer vector; raises
IndexError on an empty list. -/
def listPop (l : List ℚ) : Except PyErr (ℚ × List ℚ) :=
  match l with
  | [] => Except.error PyErr.indexError
  | x :: xs => Except.ok (x, xs)

/-- The `for x in specParams` loop of paramMapper (vel_fit.process lines
122-126): fixed parameters come from paramDict0[x] (KeyError when absent),
free parameters are popped from the remaining optimizer vector. -/
def fillParams (fixParam : List String) (paramDict0 : List (String × ℚ)) :
    List String → List ℚ → Except PyErr (List ℚ × List ℚ)
  | [], rest => Except.ok ([], rest)
  | x :: xs, rest =>
    if x ∈ fixParam then
      match dictGet paramDict0 x with
      | none => Except.error PyErr.keyError
      | some v =>
        match fillParams fixParam paramDict0 xs rest with
        | Except.error e => Except.error e
        | Except.ok (vs, rest2) => Except.ok (v :: vs, rest2)
    else
      match rest with
      | [] => Except.error PyErr.indexError
      | rv :: rest2 =>
        match fillParams fixParam paramDict0 xs rest2 with
        | Except.error e => Except.error e
        | Except.ok (vs, rest3) => Except.ok (rv :: vs, rest3)

/-- paramMapper of vel_fit.process lines 103-128.  mVI is the enclosing-scope
mapVsiniInv closure.  The final check models the
`assert (len(p0rev) == 0)` of line 127. -/
def paramMapper (mVI : ℚ → ℚ) (fitVsini : Bool) (fixParam : List String)
    (paramDict0 : List (String × ℚ)) (specParams : List String)
    (p0 : List ℚ) : Except PyErr MappedParams := do
  let velRest ← listPop p0
  let vsiniRest ←
    if fitVsini then do
      let xr ← listPop velRest.2
      Except.ok (some (mVI xr.1), xr.2)
    else if "vsini" ∈ fixParam then
      match dictGet paramDict0 "vsini" with
      | none => Except.error PyErr.keyError
      | some v => Except.ok (some v, velRest.2)
    else
      Except.ok ((none : Option ℚ), velRest.2)
  let psRest ← fillParams fixParam paramDict0 specParams vsiniRest.2
  if psRest.2 = [] then
    Except.ok { vel := velRest.1, vsini := vsiniRest.1, rot_params := vsiniRest.1,
                params := psRest.1 }
  else
    Except.error PyErr.assertionError

/-- The objective func of vel_fit.process lines 139-151: paramMapper, then the
out-of-bounds velocity sentinel 1e30 returned WITHOUT calling
spec_fit.get_chisq, otherwise the chi-square (get_chisq is the abstract
parameter chisq, since spec_fit.py is not part of the sources). -/
def funcEval (chisq : MappedParams → ℚ) (mVI : ℚ → ℚ) (fitVsini : Bool)
    (fixParam : List String) (paramDict0 : List (String × ℚ))
    (specParams : List String) (mn mx : ℚ) (p : List ℚ) : Except PyErr ℚ := do
  let pdict ← paramMapper mVI fitVsini fixParam paramDict0 specParams p
  if pdict.vel > mx ∨ pdict.vel < mn then
    Except.ok (10 ^ 30)
  else
    Except.ok (chisq pdict)

/-- Modelled from the spec: spec_fit.get_chisq (spec_fit.py is not under src/)
for one representative single-arm spectrum.  Spec section 4.2: the chi-square
is the weighted least squares over the template basis; for a single basis
vector t(v) with unit errors and observed fluxes (1, 2) on two unmasked
pixels, the optimal single-coefficient chi-square has the closed form
C - B(v)^2 / A(v) with A = t1^2 + t2^2, B = f1 t1 + f2 t2, C = f1^2 + f2^2,
where the Doppler-shifted template samples are t1 = 1 and
t2 = 1 + v / c (c the speed of light in km/s). -/
def reprChisq (v : ℚ) : ℚ :=
  5 - (1 + 2 * (1 + v / (299792458 / 1000))) ^ 2
      / (1 + (1 + v / (299792458 / 1000)) ^ 2)

/-- The state after the minimizer result is unpacked (vel_fit.process lines
163-183): ret_param, ret_vsini and ret_vel are the entries stored in the
returned dict ret at lines 165-168, BEFORE the velocity clamping; best_vel is
the local variable that lines 178-183 clamp into [min_vel, max_vel]; warned
records whether the warning print of line 179 ran. -/
structure PostMin where
  ret_param : List (String × ℚ)
  ret_vsini : Option ℚ
  ret_vel : ℚ
  best_vel : ℚ
  warned : Bool
deriving DecidableEq, Repr

/-- Lines 163-183 of vel_fit.process: build ret['param'], ret['vsini'] (only
when fitVsini), ret['vel'], then clamp only the LOCAL best_vel variable. -/
def postMinimize (specParams : List String) (fitVsini : Bool)
    (bp : MappedParams) (mn mx : ℚ) : PostMin :=
  { ret_param := List.zip specParams bp.params,
    ret_vsini := if fitVsini then bp.vsini else none,
    ret_vel := bp.vel,
    best_vel := if bp.vel > mx then mx else if bp.vel < mn then mn else bp.vel,
    warned := if bp.vel > mx ∨ bp.vel < mn then true else false }

/-- The mutable state of the adaptive velocity-uncertainty while-loop of
vel_fit.process lines 189-207: the current vel_step and the (narrowing)
min_vel / max_vel scan bounds. -/
structure ScanState where
  vel_step : ℚ
  min_vel : ℚ
  max_vel : ℚ
deriving DecidableEq, Repr

/-- Line 204 of vel_fit.process:
vel_step = max(res1['vel_err'], vel_step) / crit_ratio * 0.8 with
crit_ratio = 5. -/
def scanNextStep (vel_err s_step : ℚ) : ℚ := max vel_err s_step / 5 * (8/10)

/-- The else-branch of the loop (vel_fit.process lines 203-207): shrink the
step, then recompute the scan bounds from new_width = max(vel_err, new
vel_step) * 10. -/
def scanUpdate (best_vel vel_err : ℚ) (s : ScanState) : ScanState :=
  { vel_step := scanNextStep vel_err s.vel_step,
    min_vel := max (best_vel - max vel_err (scanNextStep vel_err s.vel_step) * 10) s.min_vel,
    max_vel := min (best_vel + max vel_err (scanNextStep vel_err s.vel_step) * 10) s.max_vel }

/-- The while True loop of vel_fit.process lines 190-207, with the external
spec_fit.find_best call abstracted to the oracle velErr giving the vel_err of
iteration i, and an explicit fuel bound (the source has none; none is needed,
see the termination theorems).  The exit test of line 201 is
vel_step < vel_err / crit_ratio OR vel_step < min_vel_step, crit_ratio = 5.
Returns the exiting iteration index and state, or none if fuel ran out. -/
def scanLoop (velErr : ℕ → ℚ) (best_vel min_vel_step : ℚ) :
    ℕ → ℕ → ScanState → Option (ℕ × ScanState)
  | 0, _, _ => none
  | fuel + 1, i, s =>
    if s.vel_step < velErr i / 5 ∨ s.vel_step < min_vel_step then some (i, s)
    else scanLoop velErr best_vel min_vel_step fuel (i + 1) (scanUpdate best_vel (velErr i) s)

/-- The trajectory of loop states: state before iteration n, starting at s0. -/
def scanTraj (velErr : ℕ → ℚ) (best_vel : ℚ) (s0 : ScanState) : ℕ → ScanState
  | 0 => s0
  | n + 1 => scanUpdate best_vel (velErr n) (scanTraj velErr best_vel s0 n)

/-- np.diag of a matrix as a list of rows. -/
def diagQ : List (List ℚ) → List ℚ
  | [] => []
  | r :: rows => r.headD 0 :: diagQ (rows.map (fun row => row.tail))
termination_by M => M.length
decreasing_by simp [List.length_map]

/-- hess_step of vel_fit.process lines 233-234:
np.maximum(1e-4 * np.abs(params), 1e-4). -/
def hess_step (params : List ℚ) : List ℚ :=
  params.map (fun p => max (|p| * (1/10000)) (1/10000))

/-- The fields of the spec_fit.find_best result that the loop epilogue of
vel_fit.process (lines 209-211) reads. -/
structure ScanRes where
  vel_err : ℚ
  skewness : ℚ
  kurtosis : ℚ
deriving DecidableEq, Repr

/-- The fields of the full_output spec_fit.get_chisq result that
vel_fit.process lines 240-242 read. -/
structure ChisqFullOut where
  chisq : ℚ
  chisq_array : List ℚ
  models : List (List ℚ)
deriving DecidableEq, Repr

/-- The ret dict of vel_fit.process as populated before the Hessian block
(lines 165-168, 209-211). -/
structure PreRet where
  param : List (String × ℚ)
  vsini : Option ℚ
  vel : ℚ
  vel_err : ℚ
  skewness : ℚ
  kurtosis : ℚ
deriving DecidableEq, Repr

/-- The full dict returned by vel_fit.process (line 243).  The vsini field is
an Option: some models presence of the key, none its absence. -/
structure ProcessRet where
  param : List (String × ℚ)
  vsini : Option ℚ
  vel : ℚ
  vel_err : ℚ
  skewness : ℚ
  kurtosis : ℚ
  param_err : List (String × ℚ)
  yfit : List (List ℚ)
  chisq : ℚ
  chisq_array : List ℚ
deriving DecidableEq, Repr

/-- Oracles for the external calls vel_fit.process makes: the initial
spec_fit.find_best best_vel; scipy.optimize.minimize mapping startParam to
res['x']; the per-iteration spec_fit.find_best results of the scan loop; the
final full_output spec_fit.get_chisq; and the outcome of
scipy.linalg.inv(ndf.Hessian(...)): some matrix on success, none when the
Hessian is singular and scipy.linalg.inv raises LinAlgError. -/
structure ProcOracles where
  fb_best_vel : ℚ
  minimize : List ℚ → List ℚ
  scanRes : ℕ → ScanRes
  finalChisq : ChisqFullOut
  hessInvRes : Option (List (List ℚ))

/-- Lines 221-243 of vel_fit.process: invert the Hessian (LinAlgError
propagates when it is singular), then and only then store param_err, yfit,
chisq, chisq_array into ret and return it.  A singular Hessian therefore
aborts the call before anything is returned. -/
def hessTail (sqrtQ : ℚ → ℚ) (specParams : List String) (pre : PreRet)
    (outp : ChisqFullOut) (hessInvRes : Option (List (List ℚ))) :
    Except PyErr ProcessRet :=
  match hessInvRes with
  | none => Except.error PyErr.linAlgError
  | some hinv =>
      Except.ok { param := pre.param, vsini := pre.vsini, vel := pre.vel,
                  vel_err := pre.vel_err, skewness := pre.skewness,
                  kurtosis := pre.kurtosis,
                  param_err := List.zip specParams ((diagQ hinv).map sqrtQ),
                  yfit := outp.models, chisq := outp.chisq,
                  chisq_array := outp.chisq_array }

/-- The startParam construction of vel_fit.process lines 130-137: the
refined best velocity, the mapVsini transform of paramDict0['vsini'] when
vsini is fitted (a KeyError if fitVsini could hold without the key, which
its setup prevents), then the free physical parameter values. -/
def startParamStage (logQ : ℚ → ℚ) (opts : VelFitOpts) (fbv : ℚ)
    (vs : Option ℚ × Bool) (freeVals : List ℚ) : Except PyErr (List ℚ) :=
  match vs.2, vs.1 with
  | true, some v0 =>
    Except.ok ([fbv, mapVsiniQ logQ opts.min_vsini opts.max_vsini v0] ++ freeVals)
  | true, none => Except.error PyErr.keyError
  | false, _ => Except.ok ([fbv] ++ freeVals)

/-- The while-loop of vel_fit.process lines 189-207 run to its exit,
returning the find_best result res1 of the exiting iteration (the loop
epilogue of lines 209-211 reads vel_err, skewness, kurtosis from it).  The
fuel bound is a model artifact. -/
def scanStage (scanRes : ℕ → ScanRes) (best_vel min_vel_step : ℚ) (fuel : ℕ)
    (s0 : ScanState) : Except PyErr ScanRes :=
  match scanLoop (fun i => (scanRes i).vel_err) best_vel min_vel_step fuel 0 s0 with
  | some pr => Except.ok (scanRes pr.1)
  | none => Except.error PyErr.modelOutOfFuel

/-- vel_fit.process (lines 47-243) with its external calls supplied by the
oracles orc and the float log/exp/sqrt as abstract functions.  Stages in
source order: the config reads (lines 58-67), vsini setup (84-92), the first
find_best (94-101, oracle), startParam (130-137), scipy minimize (153-162,
oracle) unpacked by paramMapper (163), the ret entries and velocity clamp
(163-183), the adaptive velocity scan loop (185-207, find_best per iteration
by oracle, fuel is a model artifact), the loop epilogue (209-211), and the
Hessian tail (212-243). -/
def processModel (logQ expQ sqrtQ : ℚ → ℚ) (config : Option (List (String × ℚ)))
    (paramDict0 : List (String × ℚ)) (fixParamIn : Option (List String))
    (specParams : List String) (orc : ProcOracles) (fuel : ℕ) :
    Except PyErr ProcessRet := do
  let opts ← configStage config
  let freeVals ← getItems paramDict0
    (specParams.filter (fun x => !decide (x ∈ fixParamIn.getD [])))
  let startParam ← startParamStage logQ opts orc.fb_best_vel
    (vsiniSetup paramDict0 (fixParamIn.getD [])) freeVals
  let bp ← paramMapper (mapVsiniInvQ expQ opts.min_vsini opts.max_vsini)
    (vsiniSetup paramDict0 (fixParamIn.getD [])).2 (fixParamIn.getD [])
    paramDict0 specParams (orc.minimize startParam)
  let scanOut ← scanStage orc.scanRes
    (postMinimize specParams (vsiniSetup paramDict0 (fixParamIn.getD [])).2 bp
      opts.min_vel opts.max_vel).best_vel
    opts.min_vel_step fuel
    { vel_step := opts.vel_step0, min_vel := opts.min_vel, max_vel := opts.max_vel }
  hessTail sqrtQ specParams
    { param := (postMinimize specParams (vsiniSetup paramDict0 (fixParamIn.getD [])).2 bp
        opts.min_vel opts.max_vel).ret_param,
      vsini := (postMinimize specParams (vsiniSetup paramDict0 (fixParamIn.getD [])).2 bp
        opts.min_vel opts.max_vel).ret_vsini,
      vel := (postMinimize specParams (vsiniSetup paramDict0 (fixParamIn.getD [])).2 bp
        opts.min_vel opts.max_vel).ret_vel,
      vel_err := scanOut.vel_err, skewness := scanOut.skewness,
      kurtosis := scanOut.kurtosis }
    orc.finalChisq orc.hessInvRes

/-- Lines 165-168 of desi_fit.proc_desi: paramDict0 = res['best_par'], with
paramDict0['vsini'] = res['best_vsini'] added only when best_vsini is not
None. -/
def proc_desi_paramDict0 (best_par : List (String × ℚ)) (best_vsini : Option ℚ) :
    List (String × ℚ) :=
  match best_vsini with
  | some v => ("vsini", v) :: best_par
  | none => best_par

/-- The per-object row desi_fit.proc_desi appends to outdict (lines 179-193;
brickname, target_id, sn and chisq_c columns, which do not touch res1, are
elided). -/
structure DesiRow where
  vrad : ℚ
  vrad_err : ℚ
  logg : ℚ
  teff : ℚ
  alpha : ℚ
  feh : ℚ
  chisq_tot : ℚ
  vsini : ℚ
deriving DecidableEq, Repr

/-- One iteration of the per-object loop of desi_fit.proc_desi (lines
162-198): the fitter_ccf seed (best_par, best_vsini are its oracle outputs),
paramDict0 assembly, the vel_fit.process call with fixParam = [] (line 166),
then the outdict appends in source order; the unconditional
res1['vsini'] subscription of line 193 raises KeyError when the key is
absent. -/
def proc_desi_object (logQ expQ sqrtQ : ℚ → ℚ) (config : Option (List (String × ℚ)))
    (specParams : List String) (orc : ProcOracles) (fuel : ℕ)
    (best_par : List (String × ℚ)) (best_vsini : Option ℚ) :
    Except PyErr DesiRow := do
  let paramDict0 := proc_desi_paramDict0 best_par best_vsini
  let res1 ← processModel logQ expQ sqrtQ config paramDict0 (some []) specParams orc fuel
  let logg ← pyGetItem res1.param "logg"
  let teff ← pyGetItem res1.param "teff"
  let alpha ← pyGetItem res1.param "alpha"
  let feh ← pyGetItem res1.param "feh"
  let vsiniv ← match res1.vsini with
    | some w => Except.ok w
    | none => Except.error PyErr.keyError
  Except.ok { vrad := res1.vel, vrad_err := res1.vel_err, logg := logg,
              teff := teff, alpha := alpha, feh := feh,
              chisq_tot := res1.chisq_array.sum, vsini := vsiniv }

/-- desi_fit.proc_desi_wrapper (lines 203-208): run proc_desi on the args;
on any exception print the identifying args (returned as the log) and
RE-RAISE the exception.  A is the argument tuple type, E the exception
type. -/
def proc_desi_wrapper {A E : Type} (pd : A → Except E Unit) (args : A) :
    List A × Except E Unit :=
  match pd args with
  | Except.ok u => ([], Except.ok u)
  | Except.error e => ([args], Except.error e)

/-- The outcome of the proc_many file loop: which files proc_desi was invoked
on, the logged failure args, and the exception (if any) that propagated out
of the loop. -/
structure BatchOutcome (A E : Type) where
  attempted : List String
  failLog : List A
  raised : Option E
deriving DecidableEq, Repr

/-- The file loop of desi_fit.proc_many (lines 244-258) in its sequential
path (nthreads = 1, the default, where proc_desi_wrapper is called inline at
line 258 so a re-raised exception aborts the loop).  The args tuple is
modelled by its first two components (f, ofname) with
ofname = oprefix + 'outtab_' + fname; the path-basename split of line 246 is
elided (file names are treated as already being base names).  The
`(not overwrite) and os.path.exists(ofname)` skip of line 248 uses the
existsF oracle. -/
def proc_many_seq {E : Type} (pd : String × String → Except E Unit)
    (opref : String) (overwrite : Bool) (existsF : String → Bool) :
    List String → BatchOutcome (String × String) E
  | [] => { attempted := [], failLog := [], raised := none }
  | f :: rest =>
    let ofname := opref ++ "outtab_" ++ f
    if overwrite = false ∧ existsF ofname = true then
      proc_many_seq pd opref overwrite existsF rest
    else
      match proc_desi_wrapper pd (f, ofname) with
      | (lg, Except.ok _) =>
        let restOut := proc_many_seq pd opref overwrite existsF rest
        { attempted := f :: restOut.attempted,
          failLog := lg ++ restOut.failLog,
          raised := restOut.raised }
      | (lg, Except.error e) =>
        { attempted := [f], failLog := lg, raised := some e }

/-- A concrete oracle for example runs: the seed find_best returns velocity 0,
the minimizer returns its start vector unchanged, every scan-loop find_best
returns vel_err 1000, the final get_chisq returns chisq 10 with per-arm
chi-squares [1, 2, 3] and no models, and the Hessian inversion succeeds with
the 4 x 4 identity matrix. -/
def orcIdent4 : ProcOracles :=
  { fb_best_vel := 0, minimize := fun l => l, scanRes := fun _ => ⟨1000, 0, 0⟩,
    finalChisq := ⟨10, [1, 2, 3], []⟩,
    hessInvRes := some [[1, 0, 0, 0], [0, 1, 0, 0], [0, 0, 1, 0], [0, 0, 0, 1]] }

/-- A concrete oracle whose minimizer lands on velocity 2000 (outside the
default [-1000, 1000] velocity bounds), with a single physical parameter and
a successful 1 x 1 Hessian inversion. -/
def orcVel2000 : ProcOracles :=
  { fb_best_vel := 0, minimize := fun _ => [2000, 5000],
    scanRes := fun _ => ⟨1000, 0, 0⟩,
    finalChisq := ⟨7, [7], []⟩, hessInvRes := some [[1]] }

/-- A concrete oracle identical to orcVel2000 except that the external
Hessian inversion reports a singular Hessian (scipy.linalg.inv raises
LinAlgError). -/
def orcSingular : ProcOracles :=
  { fb_best_vel := 0, minimize := fun _ => [2000, 5000],
    scanRes := fun _ => ⟨1000, 0, 0⟩,
    finalChisq := ⟨7, [7], []⟩, hessInvRes := none }

/-- The fitter_ccf best_par seed used in the concrete desi runs. -/
def bestParFour : List (String × ℚ) :=
  [("logg", 3), ("teff", 5000), ("alpha", 0), ("feh", -1)]

/-- The physical parameter names used in the concrete desi runs. -/
def specParamsFour : List String := ["logg", "teff", "alpha", "feh"]

/-- The result the oracle orcVel2000 run of processModel produces. -/
def retVel2000 : ProcessRet :=
  { param := [("teff", 5000)], vsini := none, vel := 2000, vel_err := 1000,
    skewness := 0, kurtosis := 0, param_err := [("teff", 1)], yfit := [],
    chisq := 7, chisq_array := [7] }

/-- The result the oracle orcIdent4 run of processModel on bestParFour
produces. -/
def retIdent4 : ProcessRet :=
  { param := [("logg", 3), ("teff", 5000), ("alpha", 0), ("feh", -1)],
    vsini := none, vel := 0, vel_err := 1000, skewness := 0, kurtosis := 0,
    param_err := [("logg", 1), ("teff", 1), ("alpha", 1), ("feh", 1)],
    yfit := [], chisq := 10, chisq_array := [1, 2, 3] }

/-!  Theorems. -/

/-- Bind on Except with an ok left operand runs the continuation. -/
theorem exceptBind_ok_eq {ε α β : Type} (a : α) (f : α → Except ε β) :
    (Except.ok a >>= f) = f a := rfl

/-- Bind on Except with an error left operand short-circuits. -/
theorem exceptBind_err_eq {ε α β : Type} (e : ε) (f : α → Except ε β) :
    ((Except.error e : Except ε α) >>= f) = Except.error e := rfl

/-- C2: calling process with config None raises AttributeError at the very
first config.get (before any fitting work), never the intended
Exception('Config must be provided'): that guard, placed after the get calls,
is dead code and can raise for no configuration value whatsoever. -/
theorem claim2_theorem :
    configStage none = Except.error PyErr.attributeError ∧
    (∀ config : Option (List (String × ℚ)),
      configStage config = Except.error PyErr.attributeError ∨
      ∃ c, config = some c ∧ configStage config = Except.ok (optsOf c)) ∧
    (∀ (logQ expQ sqrtQ : ℚ → ℚ) (paramDict0 : List (String × ℚ))
        (fixParamIn : Option (List String)) (specParams : List String)
        (orc : ProcOracles) (fuel : ℕ),
      processModel logQ expQ sqrtQ none paramDict0 fixParamIn specParams orc fuel
        = Except.error PyErr.attributeError) := by
  refine ⟨rfl, ?_, ?_⟩
  · intro config
    cases config with
    | none => exact Or.inl rfl
    | some c => exact Or.inr ⟨c, rfl, rfl⟩
  · intro logQ expQ sqrtQ paramDict0 fixParamIn specParams orc fuel
    rfl

/-- C3 counterexample: a complete process run (oracles: the minimizer ends at
velocity 2000, outside the default bounds [-1000, 1000]) in which the warning
fires and the internal best_vel is clamped to 1000, yet the call returns
normally with ret['vel'] = 2000, outside [min_vel, max_vel] — refuting that
the best velocity reported in the returned result always lies within the
bounds. -/
theorem claim3_counterexample :
    processModel id id id (some []) [("teff", 5000)] (some []) ["teff"] orcVel2000 1
      = Except.ok retVel2000 ∧
    retVel2000.vel = 2000 ∧ ¬ (retVel2000.vel ≤ 1000) ∧
    (postMinimize ["teff"] false ⟨2000, none, none, [5000]⟩ (-1000) 1000).warned = true ∧
    (postMinimize ["teff"] false ⟨2000, none, none, [5000]⟩ (-1000) 1000).best_vel = 1000 := by
  refine ⟨?_, by norm_num [retVel2000], by norm_num [retVel2000], ?_, ?_⟩
  · norm_num [processModel, configStage, optsOf, pyOrQ, pyTruthy, dictGet,
      vsiniSetup, getItems, startParamStage, paramMapper, listPop, fillParams,
      postMinimize, scanStage, scanLoop, hessTail, diagQ, orcVel2000, retVel2000,
      exceptBind_ok_eq, exceptBind_err_eq,
      show ¬ (("vsini" : String) = "teff") from by simp]
  · norm_num [postMinimize]
  · norm_num [postMinimize]

/-- C3 (amended): if the optimizer's best velocity is outside
[min_vel, max_vel] the warning fires and the LOCAL best_vel variable — the
one used for the subsequent uncertainty scan and final chi-square — is
clamped to the nearest bound and always lies within the bounds; the fit is
not aborted; but ret['vel'], the velocity stored in the returned result, is
set before the clamp and keeps the unclamped optimizer value, so the
returned velocity may lie outside [min_vel, max_vel]. -/
theorem claim3_theorem (specParams : List String) (fitVsini : Bool)
    (bp : MappedParams) (mn mx : ℚ) (hle : mn ≤ mx) :
    ((postMinimize specParams fitVsini bp mn mx).warned = true ↔
      (bp.vel > mx ∨ bp.vel < mn)) ∧
    mn ≤ (postMinimize specParams fitVsini bp mn mx).best_vel ∧
    (postMinimize specParams fitVsini bp mn mx).best_vel ≤ mx ∧
    (bp.vel > mx → (postMinimize specParams fitVsini bp mn mx).best_vel = mx) ∧
    (bp.vel < mn → (postMinimize specParams fitVsini bp mn mx).best_vel = mn) ∧
    (postMinimize specParams fitVsini bp mn mx).ret_vel = bp.vel := by
  unfold postMinimize
  refine ⟨?_, ?_, ?_, ?_, ?_, rfl⟩
  · dsimp only
    split_ifs with h
    · simpa using h
    · simpa using h
  · dsimp only
    split_ifs with h1 h2
    · exact hle
    · exact le_refl mn
    · push_neg at h2; exact h2
  · dsimp only
    split_ifs with h1 h2
    · exact le_refl mx
    · exact hle
    · push_neg at h1; exact h1
  · intro h; dsimp only; rw [if_pos h]
  · intro h; dsimp only
    split_ifs with h1
    · exact absurd h (by push_neg; linarith)
    · rfl

/-- C3 witness: the amended theorem applied at the concrete out-of-bounds
velocity 2000 with the default bounds. -/
theorem claim3_witness :
    (postMinimize ["teff"] false ⟨2000, none, none, [5000]⟩ (-1000) 1000).best_vel = 1000 ∧
    (postMinimize ["teff"] false ⟨2000, none, none, [5000]⟩ (-1000) 1000).ret_vel = 2000 := by
  have h := claim3_theorem ["teff"] false ⟨2000, none, none, [5000]⟩ (-1000) 1000 (by norm_num)
  exact ⟨h.2.2.2.1 (by norm_num), h.2.2.2.2.2⟩

/-- C7 counterexample: min_vel is present in the configuration with the value
0, yet the option reading of process replaces it with the default -1000,
because `config.get('min_vel') or -1000` treats the falsy value 0 as absent —
refuting that a present value is always used. -/
theorem claim7_counterexample :
    dictGet [("min_vel", (0 : ℚ))] "min_vel" = some 0 ∧
    (optsOf [("min_vel", 0)]).min_vel = -1000 ∧
    (optsOf [("min_vel", 0)]).min_vel ≠ 0 := by
  refine ⟨?_, ?_, ?_⟩ <;>
    norm_num [optsOf, pyOrQ, pyTruthy, dictGet]

/-- C7 (amended): for each of the six recognized options, a present NONZERO
value is used as given, and the stated default is applied when the option is
absent — but also when the option is present with the falsy value 0, since
each option is read as `config.get(name) or default`. -/
theorem claim7_theorem (c : List (String × ℚ)) (v : ℚ) (hv : v ≠ 0) :
    ((dictGet c "min_vel" = some v → (optsOf c).min_vel = v) ∧
      (dictGet c "min_vel" = none → (optsOf c).min_vel = -1000) ∧
      (dictGet c "min_vel" = some 0 → (optsOf c).min_vel = -1000)) ∧
    ((dictGet c "max_vel" = some v → (optsOf c).max_vel = v) ∧
      (dictGet c "max_vel" = none → (optsOf c).max_vel = 1000) ∧
      (dictGet c "max_vel" = some 0 → (optsOf c).max_vel = 1000)) ∧
    ((dictGet c "vel_step0" = some v → (optsOf c).vel_step0 = v) ∧
      (dictGet c "vel_step0" = none → (optsOf c).vel_step0 = 5) ∧
      (dictGet c "vel_step0" = some 0 → (optsOf c).vel_step0 = 5)) ∧
    ((dictGet c "max_vsini" = some v → (optsOf c).max_vsini = v) ∧
      (dictGet c "max_vsini" = none → (optsOf c).max_vsini = 500) ∧
      (dictGet c "max_vsini" = some 0 → (optsOf c).max_vsini = 500)) ∧
    ((dictGet c "min_vsini" = some v → (optsOf c).min_vsini = v) ∧
      (dictGet c "min_vsini" = none → (optsOf c).min_vsini = 1/100) ∧
      (dictGet c "min_vsini" = some 0 → (optsOf c).min_vsini = 1/100)) ∧
    ((dictGet c "min_vel_step" = some v → (optsOf c).min_vel_step = v) ∧
      (dictGet c "min_vel_step" = none → (optsOf c).min_vel_step = 1/5) ∧
      (dictGet c "min_vel_step" = some 0 → (optsOf c).min_vel_step = 1/5)) := by
  refine ⟨⟨?_, ?_, ?_⟩, ⟨?_, ?_, ?_⟩, ⟨?_, ?_, ?_⟩, ⟨?_, ?_, ?_⟩, ⟨?_, ?_, ?_⟩,
    ⟨?_, ?_, ?_⟩⟩ <;>
    (intro h; simp [optsOf, pyOrQ, pyTruthy, h, hv])

/-- C7 witness: a configuration providing min_vel = 7 (nonzero) is used as
given. -/
theorem claim7_witness : (optsOf [("min_vel", 7)]).min_vel = 7 := by
  have h := claim7_theorem [("min_vel", 7)] 7 (by norm_num)
  exact h.1.1 (by norm_num [dictGet])

/-- C9: the vsini transform pair of process satisfies the round-trip law
mapVsiniInv(mapVsini(v)) = clip(v, min_vsini, max_vsini) for every real v
(given the positive lower bound 0 < min_vsini ≤ max_vsini, as holds for the
defaults 0.01 and 500); in particular every v in [min_vsini, max_vsini] is
recovered exactly. -/
theorem claim9_theorem (mn mx : ℝ) (h0 : 0 < mn) (hle : mn ≤ mx) (v : ℝ) :
    mapVsiniInv mn mx (mapVsini mn mx v) = min (max v mn) mx ∧
    (mn ≤ v → v ≤ mx → mapVsiniInv mn mx (mapVsini mn mx v) = v) := by
  have hmn_le : mn ≤ min (max v mn) mx := le_min (le_max_right v mn) hle
  have hw0 : 0 < min (max v mn) mx := lt_of_lt_of_le h0 hmn_le
  have hmain : mapVsiniInv mn mx (mapVsini mn mx v) = min (max v mn) mx := by
    unfold mapVsini mapVsiniInv
    rw [Real.exp_log hw0, max_eq_left hmn_le, min_eq_left (min_le_right (max v mn) mx)]
  refine ⟨hmain, fun h1 h2 => ?_⟩
  rw [hmain, max_eq_left h1, min_eq_left h2]

/-- C9 witness: the round trip at min_vsini = 1, max_vsini = 2, v = 3/2. -/
theorem claim9_witness :
    mapVsiniInv 1 2 (mapVsini 1 2 (3/2)) = (3/2 : ℝ) := by
  have h := claim9_theorem 1 2 (by norm_num) (by norm_num) (3/2)
  exact h.2 (by norm_num) (by norm_num)

/-- The loop body state of iteration n+1 is the update of that of iteration
n. -/
theorem scanTraj_succ (velErr : ℕ → ℚ) (bv : ℚ) (s0 : ScanState) (n : ℕ) :
    scanTraj velErr bv s0 (n + 1) = scanUpdate bv (velErr n) (scanTraj velErr bv s0 n) := rfl

/-- If the loop returns some (j, s) when started at iteration index i in the
trajectory state of index i, then j is the first index at or after i whose
state passes the exit test of line 201, and s is its trajectory state. -/
theorem scanLoop_some_spec (velErr : ℕ → ℚ) (bv m : ℚ) (s0 : ScanState) :
    ∀ fuel i j s, scanLoop velErr bv m fuel i (scanTraj velErr bv s0 i) = some (j, s) →
      i ≤ j ∧ s = scanTraj velErr bv s0 j ∧
      ((scanTraj velErr bv s0 j).vel_step < velErr j / 5 ∨
        (scanTraj velErr bv s0 j).vel_step < m) ∧
      ∀ k, i ≤ k → k < j →
        ¬ ((scanTraj velErr bv s0 k).vel_step < velErr k / 5 ∨
            (scanTraj velErr bv s0 k).vel_step < m) := by
  intro fuel
  induction fuel with
  | zero => intro i j s h; simp [scanLoop] at h
  | succ f ih =>
    intro i j s h
    rw [scanLoop] at h
    by_cases hex : (scanTraj velErr bv s0 i).vel_step < velErr i / 5 ∨
        (scanTraj velErr bv s0 i).vel_step < m
    · rw [if_pos hex] at h
      simp only [Option.some.injEq, Prod.mk.injEq] at h
      obtain ⟨rfl, rfl⟩ := h
      exact ⟨le_refl i, rfl, hex, fun k hk1 hk2 => absurd (lt_of_le_of_lt hk1 hk2) (lt_irrefl i)⟩
    · rw [if_neg hex, ← scanTraj_succ velErr bv s0 i] at h
      obtain ⟨hij, hs, hexj, hall⟩ := ih (i + 1) j s h
      refine ⟨le_trans (Nat.le_succ i) hij, hs, hexj, fun k hk1 hk2 => ?_⟩
      rcases Nat.eq_or_lt_of_le hk1 with rfl | hk1'
      · exact hex
      · exact hall k hk1' hk2

/-- If the loop runs out of fuel (returns none) when started at iteration i
in the trajectory state of index i, then no iteration it visited passed the
exit test. -/
theorem scanLoop_none_spec (velErr : ℕ → ℚ) (bv m : ℚ) (s0 : ScanState) :
    ∀ fuel i, scanLoop velErr bv m fuel i (scanTraj velErr bv s0 i) = none →
      ∀ k, i ≤ k → k < i + fuel →
        ¬ ((scanTraj velErr bv s0 k).vel_step < velErr k / 5 ∨
            (scanTraj velErr bv s0 k).vel_step < m) := by
  intro fuel
  induction fuel with
  | zero => intro i _ k hik hk; omega
  | succ f ih =>
    intro i h k hik hk
    rw [scanLoop] at h
    by_cases hex : (scanTraj velErr bv s0 i).vel_step < velErr i / 5 ∨
        (scanTraj velErr bv s0 i).vel_step < m
    · rw [if_pos hex] at h; exact Option.noConfusion h
    · rw [if_neg hex, ← scanTraj_succ velErr bv s0 i] at h
      rcases Nat.eq_or_lt_of_le hik with rfl | hik'
      · exact hex
      · exact ih (i + 1) h k hik' (by omega)

/-- A loop iteration that does not pass the exit test shrinks a nonnegative
vel_step by at least the factor 4/5: continuing requires
vel_step >= vel_err / 5, hence max(vel_err, vel_step) <= 5 * vel_step, and
the update is max(vel_err, vel_step) / 5 * 0.8. -/
theorem scanNextStep_shrink (e m s_step : ℚ) (hs : 0 ≤ s_step)
    (h : ¬ (s_step < e / 5 ∨ s_step < m)) :
    0 ≤ scanNextStep e s_step ∧ scanNextStep e s_step ≤ (4/5) * s_step := by
  push_neg at h
  obtain ⟨h1, _⟩ := h
  have hmaxlo : s_step ≤ max e s_step := le_max_right e s_step
  have hmaxhi : max e s_step ≤ 5 * s_step := by
    apply max_le
    · linarith
    · linarith
  unfold scanNextStep
  constructor
  · linarith
  · linarith

/-- As long as no iteration up to n passes the exit test, the vel_step of
iteration n is nonnegative and bounded by (4/5)^n times the starting
vel_step. -/
theorem scanTraj_bound (velErr : ℕ → ℚ) (bv m : ℚ) (s0 : ScanState)
    (hs : 0 ≤ s0.vel_step) :
    ∀ n, (∀ k, k < n →
        ¬ ((scanTraj velErr bv s0 k).vel_step < velErr k / 5 ∨
            (scanTraj velErr bv s0 k).vel_step < m)) →
      0 ≤ (scanTraj velErr bv s0 n).vel_step ∧
      (scanTraj velErr bv s0 n).vel_step ≤ (4/5) ^ n * s0.vel_step := by
  intro n
  induction n with
  | zero => intro _; exact ⟨hs, by simp [scanTraj]⟩
  | succ nn ih =>
    intro hno
    obtain ⟨ih0, ih1⟩ := ih (fun k hk => hno k (Nat.lt_succ_of_lt hk))
    have hstep := scanNextStep_shrink (velErr nn) m (scanTraj velErr bv s0 nn).vel_step
      ih0 (hno nn (Nat.lt_succ_self nn))
    have heq : (scanTraj velErr bv s0 (nn + 1)).vel_step
        = scanNextStep (velErr nn) (scanTraj velErr bv s0 nn).vel_step := rfl
    rw [heq]
    refine ⟨hstep.1, ?_⟩
    have hpow : (0:ℚ) ≤ (4/5) ^ nn := by positivity
    calc scanNextStep (velErr nn) (scanTraj velErr bv s0 nn).vel_step
        ≤ (4/5) * (scanTraj velErr bv s0 nn).vel_step := hstep.2
      _ ≤ (4/5) * ((4/5) ^ nn * s0.vel_step) := by nlinarith
      _ = (4/5) ^ (nn + 1) * s0.vel_step := by ring

/-- C5 counterexample: at vel_step = 1/10 with the loop seeing
vel_err = 1/20 and the default floor min_vel_step = 1/5, the loop exits
immediately (the code test `vel_step < vel_err / crit_ratio OR
vel_step < min_vel_step` holds through its second disjunct), although the
claimed conjunctive condition — step smaller than vel_err / 5 AND below the
floor — is false, since 1/10 is not smaller than (1/20) / 5. -/
theorem claim5_counterexample :
    scanLoop (fun _ => 1/20) 0 (1/5) 1 0 { vel_step := 1/10, min_vel := -1000, max_vel := 1000 }
      = some (0, { vel_step := 1/10, min_vel := -1000, max_vel := 1000 }) ∧
    ¬ ((1/10 : ℚ) < (1/20) / 5 ∧ (1/10 : ℚ) < 1/5) := by
  constructor
  · norm_num [scanLoop]
  · norm_num

/-- C5 (amended): the adaptive scan loop exits exactly when the current
vel_step is smaller than vel_err / crit_ratio (crit_ratio = 5) OR below the
minimum step floor min_vel_step — a disjunction, not the claimed
conjunction; at every earlier iteration neither disjunct held and the step
was updated to max(vel_err, step) / crit_ratio * 0.8. -/
theorem claim5_theorem (velErr : ℕ → ℚ) (bv m : ℚ) (s0 : ScanState)
    (fuel j : ℕ) (s : ScanState)
    (h : scanLoop velErr bv m fuel 0 s0 = some (j, s)) :
    s = scanTraj velErr bv s0 j ∧
    ((scanTraj velErr bv s0 j).vel_step < velErr j / 5 ∨
      (scanTraj velErr bv s0 j).vel_step < m) ∧
    ∀ k, k < j →
      ¬ ((scanTraj velErr bv s0 k).vel_step < velErr k / 5 ∨
          (scanTraj velErr bv s0 k).vel_step < m) ∧
      (scanTraj velErr bv s0 (k + 1)).vel_step
        = max (velErr k) (scanTraj velErr bv s0 k).vel_step / 5 * (8/10) := by
  have h0 : scanLoop velErr bv m fuel 0 (scanTraj velErr bv s0 0) = some (j, s) := h
  obtain ⟨-, hs, hexj, hall⟩ := scanLoop_some_spec velErr bv m s0 fuel 0 j s h0
  exact ⟨hs, hexj, fun k hk => ⟨hall k (Nat.zero_le k) hk, rfl⟩⟩

/-- C5 witness: a concrete run (vel_err constantly 100, floor 1/5, starting
step 5) exits at its first iteration because 5 < 100 / 5. -/
theorem claim5_witness :
    ((scanTraj (fun _ => (100:ℚ)) 0 { vel_step := 5, min_vel := -1000, max_vel := 1000 } 0).vel_step
        < (100 : ℚ) / 5 ∨
      (scanTraj (fun _ => (100:ℚ)) 0 { vel_step := 5, min_vel := -1000, max_vel := 1000 } 0).vel_step
        < (1/5 : ℚ)) := by
  have h := claim5_theorem (fun _ => 100) 0 (1/5)
    { vel_step := 5, min_vel := -1000, max_vel := 1000 }
    1 0 { vel_step := 5, min_vel := -1000, max_vel := 1000 } (by norm_num [scanLoop])
  exact h.2.1

/-- C6 counterexample: with the default configuration (vel_step0 = 5,
min_vel_step = 1/5) there is NO sequence of vel_err values on which the scan
loop runs forever: assuming one, no iteration up to 15 passes the exit test,
so after 15 non-exiting iterations the step is at most (4/5)^15 * 5 < 1/5,
which forces the floor disjunct of the exit test — a contradiction.  (In the
exact arithmetic of the model; this refutes the claimed existence of a
non-terminating vel_err sequence.) -/
theorem claim6_counterexample :
    ¬ ∃ velErr : ℕ → ℚ, ∀ fuel : ℕ,
      scanLoop velErr 0 (1/5) fuel 0 { vel_step := 5, min_vel := -1000, max_vel := 1000 }
        = none := by
  rintro ⟨velErr, hall⟩
  have hnone : scanLoop velErr 0 (1/5) 16 0
      (scanTraj velErr 0 { vel_step := 5, min_vel := -1000, max_vel := 1000 } 0) = none :=
    hall 16
  have hno := scanLoop_none_spec velErr 0 (1/5)
    { vel_step := 5, min_vel := -1000, max_vel := 1000 } 16 0 hnone
  have hbound := scanTraj_bound velErr 0 (1/5)
    { vel_step := 5, min_vel := -1000, max_vel := 1000 } (by norm_num) 15
    (fun k hk => hno k (Nat.zero_le k) (by omega))
  have h15 := hno 15 (Nat.zero_le 15) (by omega)
  push_neg at h15
  have hlt : ((4:ℚ)/5) ^ 15 * 5 < 1/5 := by norm_num
  have := hbound.2
  have hfloor := h15.2
  simp only [ScanState.mk.injEq] at this hfloor
  linarith

/-- C6 (amended): the loop indeed has no iteration counter, but in exact
arithmetic it terminates for EVERY sequence of vel_err values whenever the
step floor is positive and the starting step nonnegative: each non-exiting
iteration multiplies vel_step by at most 4/5 (continuing requires
vel_step >= vel_err / 5), so the step eventually drops below min_vel_step and
the exit test fires; some finite fuel makes the loop return. -/
theorem claim6_theorem (velErr : ℕ → ℚ) (bv m : ℚ) (s0 : ScanState)
    (hm : 0 < m) (hs : 0 ≤ s0.vel_step) :
    ∃ (fuel j : ℕ) (s : ScanState), scanLoop velErr bv m fuel 0 s0 = some (j, s) := by
  obtain ⟨n, hn⟩ := exists_pow_lt_of_lt_one
    (div_pos hm (by linarith : (0:ℚ) < s0.vel_step + 1)) (by norm_num : (4:ℚ)/5 < 1)
  cases hres : scanLoop velErr bv m (n + 1) 0 s0 with
  | some pr => exact ⟨n + 1, pr.1, pr.2, by rw [hres]⟩
  | none =>
    exfalso
    have hnone : scanLoop velErr bv m (n + 1) 0 (scanTraj velErr bv s0 0) = none := hres
    have hno := scanLoop_none_spec velErr bv m s0 (n + 1) 0 hnone
    have hbound := scanTraj_bound velErr bv m s0 hs n
      (fun k hk => hno k (Nat.zero_le k) (by omega))
    have hnn := hno n (Nat.zero_le n) (by omega)
    push_neg at hnn
    have hpow : (0:ℚ) ≤ (4/5) ^ n := by positivity
    have hlt : ((4:ℚ)/5) ^ n * (s0.vel_step + 1) < m :=
      (lt_div_iff₀ (by linarith : (0:ℚ) < s0.vel_step + 1)).mp hn
    have hmono : ((4:ℚ)/5) ^ n * s0.vel_step ≤ (4/5) ^ n * (s0.vel_step + 1) := by nlinarith
    have hfloor := hnn.2
    have hb := hbound.2
    linarith

/-- C6 witness: the amended termination theorem at the default configuration
(floor 1/5, starting step 5) and the constantly-zero vel_err sequence. -/
theorem claim6_witness :
    ∃ (fuel j : ℕ) (s : ScanState),
      scanLoop (fun _ => 0) 7 (1/5) fuel 0 { vel_step := 5, min_vel := -1000, max_vel := 1000 }
        = some (j, s) :=
  claim6_theorem (fun _ => 0) 7 (1/5) { vel_step := 5, min_vel := -1000, max_vel := 1000 }
    (by norm_num) (by norm_num)

/-- C1 counterexample: a two-file batch in which proc_desi fails on the first
file.  The sequential proc_many loop logs the failure but proc_desi_wrapper
re-raises it, so the raised exception propagates: the second file is never
processed and the whole batch aborts — refuting that proc_many continues with
the remaining files after a caught failure. -/
theorem claim1_counterexample :
    (proc_many_seq (fun ar => if ar.1 = "a" then Except.error "boom" else Except.ok ())
        "o_" true (fun _ => false) ["a", "b"]).raised = some "boom" ∧
    "b" ∉ (proc_many_seq (fun ar => if ar.1 = "a" then Except.error "boom" else Except.ok ())
        "o_" true (fun _ => false) ["a", "b"]).attempted := by
  constructor
  · simp [proc_many_seq, proc_desi_wrapper]
  · simp [proc_many_seq, proc_desi_wrapper]

/-- C1 (amended): in the sequential path of proc_many, when every file before
f succeeds and proc_desi raises on f, the failure IS caught and logged with
its identifying arguments, but the wrapper re-raises it, so the loop aborts
at f: the exception propagates out of proc_many, exactly the files up to and
including f were attempted, and the files after f are never processed.  (In
the parallel path the exception is captured inside a never-inspected future,
so only there does the loop continue.) -/
theorem claim1_theorem {E : Type} (pd : String × String → Except E Unit)
    (opref : String) (existsF : String → Bool) (pre post : List String)
    (f : String) (e : E)
    (hpre : ∀ g ∈ pre, pd (g, opref ++ "outtab_" ++ g) = Except.ok ())
    (hf : pd (f, opref ++ "outtab_" ++ f) = Except.error e) :
    (proc_many_seq pd opref true existsF (pre ++ f :: post)).raised = some e ∧
    (proc_many_seq pd opref true existsF (pre ++ f :: post)).attempted = pre ++ [f] ∧
    (f, opref ++ "outtab_" ++ f) ∈ (proc_many_seq pd opref true existsF (pre ++ f :: post)).failLog := by
  induction pre with
  | nil =>
    simp only [List.nil_append]
    rw [proc_many_seq]
    simp [proc_desi_wrapper, hf]
  | cons g gs ih =>
    have hg : pd (g, opref ++ "outtab_" ++ g) = Except.ok () :=
      hpre g (List.mem_cons_self g gs)
    have ihres := ih (fun x hx => hpre x (List.mem_cons_of_mem g hx))
    simp only [List.cons_append]
    rw [proc_many_seq]
    simp only [Bool.true_eq_false, false_and, if_neg (by simp : ¬ (True = False ∧ _ = true))]
    simp [proc_desi_wrapper, hg, ihres.1, ihres.2.1, ihres.2.2]

/-- C1 witness: the amended theorem at the concrete two-file batch whose
first file fails. -/
theorem claim1_witness :
    (proc_many_seq (fun ar => if ar.1 = "a" then Except.error "boom" else Except.ok ())
        "o_" true (fun _ => false) (["a", "b"])).attempted = ["a"] ∧
    (proc_many_seq (fun ar => if ar.1 = "a" then Except.error "boom" else Except.ok ())
        "o_" true (fun _ => false) (["a", "b"])).raised = some "boom" := by
  have h := claim1_theorem (E := String)
    (fun ar => if ar.1 = "a" then Except.error "boom" else Except.ok ())
    "o_" (fun _ => false) [] ["b"] "a" "boom"
    (by intro g hg; exact absurd hg (List.not_mem_nil g)) (by simp)
  exact ⟨h.2.1, h.1⟩

/-- The representative chi-square profile is at most 5: the optimal
least-squares chi-square C - B^2 / A never exceeds the zero-coefficient
chi-square C = 5, because A > 0 makes B^2 / A nonnegative. -/
theorem reprChisq_le_five (v : ℚ) : reprChisq v ≤ 5 := by
  unfold reprChisq
  have hA : (0:ℚ) < 1 + (1 + v / (299792458 / 1000)) ^ 2 := by positivity
  have hB : (0:ℚ) ≤ (1 + 2 * (1 + v / (299792458 / 1000))) ^ 2
      / (1 + (1 + v / (299792458 / 1000)) ^ 2) :=
    div_nonneg (sq_nonneg _) hA.le
  linarith

/-- C8: whenever the mapped parameter vector has its velocity outside
[min_vel, max_vel], the objective returns the sentinel 1e30 for EVERY
chi-square oracle — i.e. without evaluating the chi-square — and for the
representative spectrum (reprChisq, modelled from the spec) the sentinel
strictly dominates every value the objective returns at an in-bounds
velocity. -/
theorem claim8_theorem (mVI : ℚ → ℚ) (fitVsini : Bool) (fixParam : List String)
    (paramDict0 : List (String × ℚ)) (specParams : List String) (mn mx : ℚ)
    (p : List ℚ) (pd : MappedParams)
    (hmap : paramMapper mVI fitVsini fixParam paramDict0 specParams p = Except.ok pd)
    (hout : pd.vel > mx ∨ pd.vel < mn) :
    (∀ chisq : MappedParams → ℚ,
      funcEval chisq mVI fitVsini fixParam paramDict0 specParams mn mx p
        = Except.ok (10 ^ 30)) ∧
    (∀ v : ℚ, reprChisq v < 10 ^ 30) ∧
    (∀ (q : List ℚ) (qd : MappedParams),
      paramMapper mVI fitVsini fixParam paramDict0 specParams q = Except.ok qd →
      mn ≤ qd.vel → qd.vel ≤ mx →
      funcEval (fun md => reprChisq md.vel) mVI fitVsini fixParam paramDict0 specParams mn mx q
          = Except.ok (reprChisq qd.vel) ∧
        reprChisq qd.vel < 10 ^ 30) := by
  have hrepr : ∀ v : ℚ, reprChisq v < 10 ^ 30 := by
    intro v
    have := reprChisq_le_five v
    have : (5:ℚ) < 10 ^ 30 := by norm_num
    linarith [reprChisq_le_five v]
  refine ⟨?_, hrepr, ?_⟩
  · intro chisq
    unfold funcEval
    rw [hmap, exceptBind_ok_eq, if_pos hout]
  · intro q qd hq h1 h2
    have hin : ¬ (qd.vel > mx ∨ qd.vel < mn) := by push_neg; exact ⟨h2, h1⟩
    constructor
    · unfold funcEval
      rw [hq, exceptBind_ok_eq, if_neg hin]
    · exact hrepr qd.vel

/-- C8 witness: at the out-of-bounds velocity 2000 with default bounds and
no vsini fitting, the objective evaluates to the sentinel for the constant
zero chi-square oracle, and the sentinel dominates the representative
in-bounds value at velocity 0. -/
theorem claim8_witness :
    funcEval (fun _ => 0) (fun x => x) false [] [] [] (-1000) 1000 [2000]
      = Except.ok ((10:ℚ) ^ 30) ∧
    funcEval (fun md => reprChisq md.vel) (fun x => x) false [] [] [] (-1000) 1000 [0]
        = Except.ok (reprChisq 0) ∧
    reprChisq 0 < 10 ^ 30 := by
  have hmap : paramMapper (fun x : ℚ => x) false [] [] [] [2000]
      = Except.ok { vel := 2000, vsini := none, rot_params := none, params := [] } := by
    simp [paramMapper, listPop, fillParams, exceptBind_ok_eq]
  have hmap0 : paramMapper (fun x : ℚ => x) false [] [] [] [0]
      = Except.ok { vel := 0, vsini := none, rot_params := none, params := [] } := by
    simp [paramMapper, listPop, fillParams, exceptBind_ok_eq]
  have h := claim8_theorem (fun x => x) false [] [] [] (-1000) 1000 [2000]
    { vel := 2000, vsini := none, rot_params := none, params := [] }
    hmap (by left; norm_num)
  have h3 := h.2.2 [0] { vel := 0, vsini := none, rot_params := none, params := [] }
    hmap0 (by norm_num) (by norm_num)
  exact ⟨h.1 (fun _ => 0), h3.1, h3.2⟩

/-- Peeling an Except bind that produced an ok value. -/
theorem exceptBind_ok_inv {ε α β : Type} {e : Except ε α} {f : α → Except ε β} {b : β}
    (h : (e >>= f) = Except.ok b) : ∃ a, e = Except.ok a ∧ f a = Except.ok b := by
  cases e with
  | error er => exact Except.noConfusion h
  | ok a => exact ⟨a, rfl, h⟩


/-- Inversion of a successful processModel run: the run reached the final
Hessian block, so the external Hessian inversion succeeded (a singular
Hessian would have raised LinAlgError instead), and when fitVsini is false
the returned dict carries no vsini key. -/
theorem processModel_ok_cases (logQ expQ sqrtQ : ℚ → ℚ)
    (config : Option (List (String × ℚ))) (paramDict0 : List (String × ℚ))
    (fixParamIn : Option (List String)) (specParams : List String)
    (orc : ProcOracles) (fuel : ℕ) (r : ProcessRet)
    (h : processModel logQ expQ sqrtQ config paramDict0 fixParamIn specParams orc fuel
      = Except.ok r) :
    orc.hessInvRes ≠ none ∧
    ((vsiniSetup paramDict0 (fixParamIn.getD [])).2 = false → r.vsini = none) := by
  rw [processModel] at h
  obtain ⟨opts, hc, h⟩ := exceptBind_ok_inv h
  obtain ⟨freeVals, hg, h⟩ := exceptBind_ok_inv h
  obtain ⟨sp, hsp, h⟩ := exceptBind_ok_inv h
  obtain ⟨bp, hbp, h⟩ := exceptBind_ok_inv h
  obtain ⟨so, hso, h⟩ := exceptBind_ok_inv h
  rw [hessTail.eq_def] at h
  cases hinv : orc.hessInvRes with
  | none => rw [hinv] at h; exact Except.noConfusion h
  | some m =>
    rw [hinv] at h
    refine ⟨by simp [hinv], fun hfv => ?_⟩
    have hr : r.vsini = (postMinimize specParams
        (vsiniSetup paramDict0 (fixParamIn.getD [])).2 bp
        opts.min_vel opts.max_vel).ret_vsini := by
      rw [← Except.ok.inj h]
    rw [hr]
    simp [postMinimize, hfv]

/-- C4 counterexample: a complete concrete process run that reaches the
Hessian block with the already-computed best-fit velocity, parameters and
partial results in hand, in which the external inversion reports a singular
Hessian: the LinAlgError propagates out of process and the call returns
NOTHING — refuting that the best-fit velocity, parameter vector, chi-square
and fitted models are still returned to the caller. -/
theorem claim4_counterexample :
    processModel id id id (some []) [("teff", 5000)] (some []) ["teff"] orcSingular 1
      = Except.error PyErr.linAlgError ∧
    ¬ ∃ r : ProcessRet,
      processModel id id id (some []) [("teff", 5000)] (some []) ["teff"] orcSingular 1
        = Except.ok r := by
  have h : processModel id id id (some []) [("teff", 5000)] (some []) ["teff"] orcSingular 1
      = Except.error PyErr.linAlgError := by
    norm_num [processModel, configStage, optsOf, pyOrQ, pyTruthy, dictGet,
      vsiniSetup, getItems, startParamStage, paramMapper, listPop, fillParams,
      postMinimize, scanStage, scanLoop, hessTail, diagQ, orcSingular,
      exceptBind_ok_eq, exceptBind_err_eq,
      show ¬ (("vsini" : String) = "teff") from by simp]
  refine ⟨h, ?_⟩
  rintro ⟨r, hr⟩
  rw [h] at hr
  exact Except.noConfusion hr

/-- C4 (amended): when the external inversion of the numerical Hessian
reports a singular matrix (the LinAlgError of scipy.linalg.inv), the
exception propagates out of process: nothing at all is returned — the
already-computed best-fit velocity, parameters, chi-square and models are
lost, not merely the uncertainties.  Only when the inversion succeeds does
process return, and then the result carries both the best-fit quantities and
the parameter uncertainties from the inverse Hessian diagonal. -/
theorem claim4_theorem (sqrtQ : ℚ → ℚ) (specParams : List String) (pre : PreRet)
    (outp : ChisqFullOut) (hessInvRes : Option (List (List ℚ))) :
    (hessInvRes = none →
      hessTail sqrtQ specParams pre outp hessInvRes = Except.error PyErr.linAlgError ∧
      ¬ ∃ r : ProcessRet,
        hessTail sqrtQ specParams pre outp hessInvRes = Except.ok r) ∧
    (∀ m, hessInvRes = some m →
      hessTail sqrtQ specParams pre outp hessInvRes = Except.ok
        { param := pre.param, vsini := pre.vsini, vel := pre.vel,
          vel_err := pre.vel_err, skewness := pre.skewness,
          kurtosis := pre.kurtosis,
          param_err := List.zip specParams ((diagQ m).map sqrtQ),
          yfit := outp.models, chisq := outp.chisq,
          chisq_array := outp.chisq_array }) ∧
    (hessInvRes = none →
      ∀ (logQ expQ : ℚ → ℚ) (config : Option (List (String × ℚ)))
        (paramDict0 : List (String × ℚ)) (fixParamIn : Option (List String))
        (sp2 : List String) (fbv : ℚ) (minz : List ℚ → List ℚ)
        (scn : ℕ → ScanRes) (fc : ChisqFullOut) (fuel : ℕ) (r : ProcessRet),
        processModel logQ expQ sqrtQ config paramDict0 fixParamIn sp2
          { fb_best_vel := fbv, minimize := minz, scanRes := scn,
            finalChisq := fc, hessInvRes := hessInvRes } fuel
          ≠ Except.ok r) := by
  refine ⟨?_, ?_, ?_⟩
  · rintro rfl
    exact ⟨rfl, by rintro ⟨r, hr⟩; exact Except.noConfusion hr⟩
  · rintro m rfl
    rfl
  · rintro rfl logQ expQ config paramDict0 fixParamIn sp2 fbv minz scn fc fuel r hok
    exact (processModel_ok_cases logQ expQ sqrtQ config paramDict0 fixParamIn sp2
      { fb_best_vel := fbv, minimize := minz, scanRes := scn,
        finalChisq := fc, hessInvRes := none } fuel r hok).1 rfl

/-- C4 witness: the amended theorem applied at a concrete singular-inversion
outcome. -/
theorem claim4_witness :
    hessTail (fun q => q) ["logg"]
      { param := [("logg", 3)], vsini := none, vel := 120, vel_err := 2,
        skewness := 0, kurtosis := 0 }
      { chisq := 10, chisq_array := [10], models := [] } none
      = Except.error PyErr.linAlgError := by
  have h := claim4_theorem (fun q => q) ["logg"]
    { param := [("logg", 3)], vsini := none, vel := 120, vel_err := 2,
      skewness := 0, kurtosis := 0 }
    { chisq := 10, chisq_array := [10], models := [] } none
  exact (h.1 rfl).1

/-- C10: when the cross-correlation seed gives best_vsini None (and its
best_par carries no vsini key, per the spec interface of the seed provider),
proc_desi passes a paramDict0 without vsini to process, the successful
process result then contains no vsini key, and the unconditional
res1['vsini'] subscription of proc_desi raises KeyError, aborting the
processing of that file. -/
theorem claim10_theorem (logQ expQ sqrtQ : ℚ → ℚ)
    (config : Option (List (String × ℚ))) (specParams : List String)
    (orc : ProcOracles) (fuel : ℕ) (best_par : List (String × ℚ))
    (r : ProcessRet)
    (hnv : dictGet best_par "vsini" = none)
    (hrun : processModel logQ expQ sqrtQ config best_par (some []) specParams orc fuel
      = Except.ok r)
    (lg tf al fe : ℚ)
    (hlogg : dictGet r.param "logg" = some lg)
    (hteff : dictGet r.param "teff" = some tf)
    (halpha : dictGet r.param "alpha" = some al)
    (hfeh : dictGet r.param "feh" = some fe) :
    r.vsini = none ∧
    proc_desi_object logQ expQ sqrtQ config specParams orc fuel best_par none
      = Except.error PyErr.keyError := by
  have hvs : (vsiniSetup best_par ((some ([] : List String)).getD [])).2 = false := by
    simp [vsiniSetup, hnv]
  have hnone := (processModel_ok_cases logQ expQ sqrtQ config best_par (some [])
    specParams orc fuel r hrun).2 hvs
  refine ⟨hnone, ?_⟩
  simp only [proc_desi_object, proc_desi_paramDict0, hrun, exceptBind_ok_eq,
    pyGetItem, hlogg, hteff, halpha, hfeh, hnone, exceptBind_err_eq]

/-- C10 witness: the theorem applied to a complete concrete run (the
bestParFour seed without vsini, identity minimizer and log/exp/sqrt,
successful identity Hessian inversion): the per-object step fails with
KeyError. -/
theorem claim10_witness :
    proc_desi_object id id id (some []) specParamsFour orcIdent4 1 bestParFour none
      = Except.error PyErr.keyError := by
  have hrun : processModel id id id (some []) bestParFour (some []) specParamsFour orcIdent4 1
      = Except.ok retIdent4 := by
    norm_num [processModel, configStage, optsOf, pyOrQ, pyTruthy, dictGet,
      vsiniSetup, getItems, startParamStage, paramMapper, listPop, fillParams,
      postMinimize, scanStage, scanLoop, hessTail, diagQ, orcIdent4, retIdent4,
      bestParFour, specParamsFour, exceptBind_ok_eq, exceptBind_err_eq,
      show ¬ (("vsini" : String) = "logg") from by simp,
      show ¬ (("vsini" : String) = "teff") from by simp,
      show ¬ (("vsini" : String) = "alpha") from by simp,
      show ¬ (("vsini" : String) = "feh") from by simp,
      show ¬ (("teff" : String) = "logg") from by simp,
      show ¬ (("alpha" : String) = "logg") from by simp,
      show ¬ (("alpha" : String) = "teff") from by simp,
      show ¬ (("feh" : String) = "logg") from by simp,
      show ¬ (("feh" : String) = "teff") from by simp,
      show ¬ (("feh" : String) = "alpha") from by simp]
  have h := claim10_theorem id id id (some []) specParamsFour orcIdent4 1 bestParFour
    retIdent4 (by simp [bestParFour, dictGet]) hrun 3 5000 0 (-1)
    (by simp [retIdent4, dictGet])
    (by simp [retIdent4, dictGet])
    (by simp [retIdent4, dictGet])
    (by simp [retIdent4, dictGet])
  exact h.2
